import Mathlib

/-!
Shallow embedding of the background task-queue and session-lifecycle core of
the message-forwarding backend, together with theorems checking the claims of
the natural-language specification against the code.

Modules embedded (source file in parentheses):
* `Models`      : row shapes of the durable store (src/database/models.py)
* `PlanRules`   : plan limits and validators (src/utils/plan_rules.py)
* `FG`          : feature gating service (src/services/feature_gating.py)
* `QueueMgr`    : queue manager ledger operations (src/services/queue_manager.py)
* `CeleryCfg`   : worker signal handlers (src/tasks/celery_config.py)
* `FwdTasks`    : forwarding task executors (src/tasks/forwarding_tasks.py)
* `TgClient`    : telegram session registry (src/bots/telegram_client.py)
* `FwdApi`      : pair-creation endpoint validation (src/api/forwarding.py)

Database access is modelled by explicit lists of rows; `datetime.utcnow()` by
an integer clock parameter (seconds); broker and protocol-client behaviour by
explicit oracle parameters.  Python `query(...).first()` is first-match lookup
(`List.find?`) and a mutation of the found row is `updateFirst`.
-/

namespace Pystr

/-- Python `str.lower()` on one character (ASCII case folding, which covers
every string the embedded code handles). -/
def lowerChar (c : Char) : Char :=
  if 65 ≤ c.toNat ∧ c.toNat ≤ 90 then Char.ofNat (c.toNat + 32) else c

/-- Python `s.lower()`. -/
def toLowerStr (s : String) : String :=
  String.mk (s.toList.map lowerChar)

/-- Whether the second character list starts with the first. -/
def leadsWith : List Char → List Char → Bool
  | [], _ => true
  | _ :: _, [] => false
  | p :: ps, c :: cs => p == c && leadsWith ps cs

/-- Whether the character list contains the pattern as a contiguous run. -/
def containsSeq (pat : List Char) : List Char → Bool
  | [] => leadsWith pat []
  | c :: cs => leadsWith pat (c :: cs) || containsSeq pat cs

/-- Python `pat in s` substring test. -/
def strContains (s pat : String) : Bool :=
  containsSeq pat.toList s.toList

/-- Decimal digit value of a character, if any. -/
def digit? (c : Char) : Option Nat :=
  if 48 ≤ c.toNat ∧ c.toNat ≤ 57 then some (c.toNat - 48) else none

def natOfDigitsAux : List Char → Nat → Option Nat
  | [], acc => some acc
  | c :: cs, acc =>
    match digit? c with
    | some d => natOfDigitsAux cs (acc * 10 + d)
    | none => none

/-- Value of a non-empty all-digit character list. -/
def natOfDigits : List Char → Option Nat
  | [] => none
  | l => natOfDigitsAux l 0

/-- Python `int(s)` on a decimal string literal (optionally signed). -/
def strToInt? (s : String) : Option Int :=
  match s.toList with
  | '-' :: rest => (natOfDigits rest).map (fun n => -(n : Int))
  | l => (natOfDigits l).map (fun n => (n : Int))

end Pystr

namespace Models

/-- A JSON-serializable python value (task payloads, result blobs). -/
inductive PyVal where
  | pyStr : String → PyVal
  | pyInt : Int → PyVal
  | pyBool : Bool → PyVal
  | pyNone : PyVal
  | pyDict : List (String × PyVal) → PyVal
  | pyList : List PyVal → PyVal
deriving Repr

/-- Row of the `queue_tasks` table (class QueueTask, src/database/models.py).
Column defaults from the model: status free-form string, `retry_count` 0,
`max_retries` 3, `priority` 1. -/
structure QueueTask where
  task_id : String
  user_id : Nat
  task_type : String
  status : String
  priority : Int
  created_at : Int
  started_at : Option Int
  completed_at : Option Int
  task_data : Option PyVal
  result_data : Option PyVal
  error_message : Option String
  retry_count : Nat
  max_retries : Nat
deriving Repr

instance : Inhabited QueueTask :=
  ⟨{ task_id := "", user_id := 0, task_type := "", status := "pending", priority := 1,
     created_at := 0, started_at := none, completed_at := none, task_data := none,
     result_data := none, error_message := none, retry_count := 0, max_retries := 3 }⟩

/-- Row of the `message_logs` table (class MessageLog). -/
structure MessageLog where
  forwarding_pair_id : Nat
  source_message_id : String
  destination_message_id : Option String
  message_type : String
  forwarded_at : Int
  status : String
  error_message : Option String
  has_media : Bool
  media_type : Option String
deriving Repr, DecidableEq

/-- Row of the `error_logs` table (class ErrorLog); only the fields the core
writes are kept. -/
structure ErrorLog where
  user_id : Option Nat
  telegram_account_id : Option Nat
  error_type : String
  error_message : String
deriving Repr, DecidableEq

/-- Row of the `forwarding_pairs` table (class ForwardingPair).  The source
column `custom_prefix` is rendered here as `custom_pre`. -/
structure ForwardingPair where
  id : Nat
  user_id : Nat
  telegram_account_id : Option Nat
  discord_account_id : Option Nat
  source_channel : String
  destination_channel : String
  delay : Int
  silent_mode : Bool
  status : String
  platform_type : String
  copy_mode : Bool
  filter_keywords : List String
  exclude_keywords : List String
  custom_pre : Option String
  custom_suffix : Option String
deriving Repr, DecidableEq

/-- Row of the `users` table (class User); the fields the core reads.  The
expiry column is `plan_expires_at`; the mapped class defines no attribute
named `plan_expiry`. -/
structure UserRow where
  id : Nat
  plan : String
  plan_expires_at : Option Int
deriving Repr, DecidableEq

/-- Row of the `telegram_accounts` table (class TelegramAccount). -/
structure TgAccount where
  id : Nat
  user_id : Nat
  phone_number : String
  session_data : Option String
  status : String
deriving Repr, DecidableEq

/-- Mutate the first element satisfying `p` (SQLAlchemy
`query(...).filter(...).first()` followed by attribute writes and commit). -/
def updateFirst (p : α → Bool) (f : α → α) : List α → List α
  | [] => []
  | x :: xs => if p x then f x :: xs else x :: updateFirst p f xs

end Models

namespace PlanRules

open Models

/-- `class PlanType(str, Enum)` of src/utils/plan_rules.py (the identical enum
of src/services/feature_gating.py is shared). -/
inductive PlanType where
  | free
  | pro
  | elite
deriving Repr, DecidableEq

/-- `PlanType(s)`: enum construction from a string; raises `ValueError` on an
unrecognized value. -/
def PlanType.ofString (s : String) : Except String PlanType :=
  if s == "free" then .ok .free
  else if s == "pro" then .ok .pro
  else if s == "elite" then .ok .elite
  else .error ("ValueError: " ++ s ++ " is not a valid PlanType")

/-- `.value` of the enum member. -/
def PlanType.value : PlanType → String
  | .free => "free"
  | .pro => "pro"
  | .elite => "elite"

/-- One entry of the `PLAN_LIMITS` dict of src/utils/plan_rules.py.
`allowed_platforms` holds the `.value` strings of the PlatformType members. -/
structure Limits where
  max_forwarding_pairs : Nat
  max_telegram_accounts : Nat
  max_discord_accounts : Nat
  max_api_keys : Nat
  allowed_platforms : List String
  features : List (String × Bool)
  api_requests_per_hour : Nat
  messages_per_day : Nat
deriving Repr, DecidableEq

/-- The `PLAN_LIMITS` dict (src/utils/plan_rules.py lines 22-101). -/
def PLAN_LIMITS : PlanType → Limits
  | .free =>
    { max_forwarding_pairs := 1
      max_telegram_accounts := 1
      max_discord_accounts := 0
      max_api_keys := 0
      allowed_platforms := ["telegram_to_telegram"]
      features := [("copy_mode", false), ("scheduled_forwarding", false),
        ("text_filtering", false), ("image_blocking", false), ("text_replacement", false),
        ("export_csv", false), ("export_pdf", false), ("api_access", false),
        ("priority_support", false), ("webhooks", false)]
      api_requests_per_hour := 100
      messages_per_day := 500 }
  | .pro =>
    { max_forwarding_pairs := 15
      max_telegram_accounts := 2
      max_discord_accounts := 1
      max_api_keys := 0
      allowed_platforms := ["telegram_to_telegram", "telegram_to_discord", "discord_to_telegram"]
      features := [("copy_mode", false), ("scheduled_forwarding", false),
        ("text_filtering", true), ("image_blocking", true), ("text_replacement", true),
        ("export_csv", true), ("export_pdf", false), ("api_access", false),
        ("priority_support", true), ("webhooks", false)]
      api_requests_per_hour := 1000
      messages_per_day := 5000 }
  | .elite =>
    { max_forwarding_pairs := 999
      max_telegram_accounts := 3
      max_discord_accounts := 3
      max_api_keys := 10
      allowed_platforms := ["telegram_to_telegram", "telegram_to_discord",
        "discord_to_telegram", "discord_to_discord"]
      features := [("copy_mode", true), ("scheduled_forwarding", true),
        ("text_filtering", true), ("image_blocking", true), ("text_replacement", true),
        ("export_csv", true), ("export_pdf", true), ("api_access", true),
        ("priority_support", true), ("webhooks", true)]
      api_requests_per_hour := 10000
      messages_per_day := 50000 }

/-- `PlanValidator.get_plan_limits`:
`plan_type = PlanType(plan.lower()); return PLAN_LIMITS.get(plan_type, PLAN_LIMITS[PlanType.FREE])`.
The enum construction raises on an unrecognized string before the dict lookup
runs; after a successful construction the dict lookup always hits, so the
`.get` default never fires. -/
def get_plan_limits (plan : String) : Except String Limits :=
  (PlanType.ofString (Pystr.toLowerStr plan)).map PLAN_LIMITS

/-- `PlanValidator.can_add_forwarding_pair` (src/utils/plan_rules.py 112-134). -/
def can_add_forwarding_pair (plan : String) (current_pairs : Nat) (platform_type : String) :
    Except String (Bool × String) := do
  let limits ← get_plan_limits plan
  if current_pairs ≥ limits.max_forwarding_pairs then
    if Pystr.toLowerStr plan == "free" then
      pure (false, "Free plan is limited to 1 forwarding pair. Upgrade to Pro for 15 pairs or Elite for unlimited pairs.")
    else if Pystr.toLowerStr plan == "pro" then
      pure (false, "Pro plan is limited to 15 forwarding pairs. Upgrade to Elite for unlimited pairs.")
    else
      pure (false, "Maximum forwarding pairs limit reached.")
  else if !(limits.allowed_platforms.contains platform_type) then
    if Pystr.toLowerStr plan == "free" then
      pure (false, "Free plan only supports Telegram → Telegram forwarding. Upgrade to Pro for cross-platform forwarding.")
    else
      pure (false, "Platform type " ++ platform_type ++ " is not allowed for " ++ plan ++ " plan.")
  else
    pure (true, "Can add forwarding pair")

end PlanRules

namespace FG

open Models PlanRules

/-- One entry of `FeatureGating._load_plan_limits`
(src/services/feature_gating.py 44-71); `-1` encodes unlimited. -/
structure FGLimits where
  max_forwarding_pairs : Int
  max_telegram_accounts : Int
  max_discord_accounts : Int
  max_api_keys : Int
  max_daily_messages : Int
  max_queue_priority : Int
deriving Repr, DecidableEq

/-- `FeatureGating.plan_limits` as loaded by `_load_plan_limits`. -/
def plan_limits : PlanType → FGLimits
  | .free =>
    { max_forwarding_pairs := 2, max_telegram_accounts := 1,
      max_discord_accounts := 1, max_api_keys := 1, max_daily_messages := 100,
      max_queue_priority := 1 }
  | .pro =>
    { max_forwarding_pairs := 10, max_telegram_accounts := 3,
      max_discord_accounts := 3, max_api_keys := 5, max_daily_messages := 5000,
      max_queue_priority := 2 }
  | .elite =>
    { max_forwarding_pairs := -1, max_telegram_accounts := 10,
      max_discord_accounts := 10, max_api_keys := 20, max_daily_messages := -1,
      max_queue_priority := 3 }

/-- `class FeatureType(Enum)` of src/services/feature_gating.py. -/
inductive FeatureType where
  | basic_forwarding
  | copy_mode
  | chain_forwarding
  | discord_forwarding
  | priority_queue
  | advanced_scheduling
  | bulk_operations
  | api_access
  | custom_delays
  | webhook_support
deriving Repr, DecidableEq

/-- `FeatureGating.plan_features` as loaded by `_load_plan_features`. -/
def plan_features : PlanType → List FeatureType
  | .free => [.basic_forwarding]
  | .pro => [.basic_forwarding, .copy_mode, .discord_forwarding, .custom_delays, .api_access]
  | .elite => [.basic_forwarding, .copy_mode, .chain_forwarding, .discord_forwarding,
      .priority_queue, .advanced_scheduling, .bulk_operations, .api_access,
      .custom_delays, .webhook_support]

/-- `FeatureGating.get_user_plan` (src/services/feature_gating.py 120-137):
missing user gives `None`; an unrecognized plan string is caught
(`except ValueError`) and defaults to the free plan. -/
def get_user_plan (users : List UserRow) (user_id : Nat) : Option PlanType :=
  match users.find? (fun u => u.id == user_id) with
  | none => none
  | some u =>
    match PlanType.ofString (Pystr.toLowerStr u.plan) with
    | .ok p => some p
    | .error _ => some .free

/-- `FeatureGating.validate_plan_active` (139-156).  A missing user returns
`False`; for an existing user the expiry branch reads `user.plan_expiry`, an
attribute the mapped `User` model does not define (its column is
`plan_expires_at`, and nothing patches `plan_expiry` onto the class), so the
access raises `AttributeError` before any comparison — the method never
returns `True`. -/
def validate_plan_active (users : List UserRow) (user_id : Nat) : Except String Bool :=
  match users.find? (fun u => u.id == user_id) with
  | none => .ok false
  | some _ =>
    .error "AttributeError: \x27User\x27 object has no attribute \x27plan_expiry\x27"

/-- `FeatureGating.check_feature_access` (158-167); the `validate_plan_active`
call has no handler here, so its `AttributeError` propagates for every
existing user. -/
def check_feature_access (users : List UserRow) (user_id : Nat)
    (feature : FeatureType) : Except String Bool :=
  match get_user_plan users user_id with
  | none => .ok false
  | some p =>
    match validate_plan_active users user_id with
    | .error e => .error e
    | .ok active =>
      if !active then .ok false
      else .ok ((plan_features p).contains feature)

/-- Result dict of `FeatureGating.validate_queue_priority`; `max_priority` is
absent from the dict exactly when the user is unknown. -/
structure PriorityCheck where
  allowed : Bool
  reason : Option String
  max_priority : Option Int
deriving Repr, DecidableEq

/-- `FeatureGating.validate_queue_priority` (src/services/feature_gating.py
260-275). -/
def validate_queue_priority (users : List UserRow) (user_id : Nat)
    (requested_priority : Int) : PriorityCheck :=
  match get_user_plan users user_id with
  | none => { allowed := false, reason := some "User not found", max_priority := none }
  | some plan =>
    let mx := (plan_limits plan).max_queue_priority
    if requested_priority > mx then
      { allowed := false
        reason := some ("Priority " ++ toString requested_priority ++
          " not available in " ++ plan.value ++ " plan")
        max_priority := some mx }
    else
      { allowed := true, reason := none, max_priority := some mx }

/-- `FeatureGating.validate_copy_mode` (289-291). -/
def validate_copy_mode (users : List UserRow) (user_id : Nat) : Except String Bool :=
  check_feature_access users user_id .copy_mode

/-- `FeatureGating.validate_custom_delays` (297-299). -/
def validate_custom_delays (users : List UserRow) (user_id : Nat) : Except String Bool :=
  check_feature_access users user_id .custom_delays

end FG

namespace QueueMgr

open Models PlanRules

/-- `QueueManager.queue_names` dict: priority band per priority value. -/
def queue_names (priority : Int) : Option String :=
  if priority == 1 then some "low_priority"
  else if priority == 2 then some "medium_priority"
  else if priority == 3 then some "high_priority"
  else none

/-- `QueueManager.task_types` dict: task type → celery task name. -/
def task_types (task_type : String) : Option String :=
  if task_type == "forward_message" then some "tasks.forwarding_tasks.forward_message_task"
  else if task_type == "send_message" then some "tasks.forwarding_tasks.send_message_task"
  else if task_type == "bulk_forward" then some "tasks.forwarding_tasks.bulk_forward_task"
  else if task_type == "session_check" then some "tasks.forwarding_tasks.session_health_check_task"
  else if task_type == "cleanup" then some "tasks.forwarding_tasks.cleanup_task"
  else none

/-- `QueueManager._get_plan_priority` (src/services/queue_manager.py 226-233). -/
def get_plan_priority (plan : PlanType) : Int :=
  match plan with
  | .free => 1
  | .pro => 2
  | .elite => 3

/-- One `celery_app.send_task` submission to the broker. -/
structure SentTask where
  task_name : String
  task_id : String
  queue : String
  countdown : Option Int
  retries_arg : Nat
deriving Repr, DecidableEq

/-- Broker submission and ledger insert, the tail of
`QueueManager.enqueue_task` once the effective `priority` is resolved: task
type validated, ledger row persisted `pending`, then one `send_task`
(scheduled when `delay > 0`). -/
def enqueue_submit (now : Int) (user_id : Nat) (task_type : String)
    (task_data : Option PyVal) (priority : Int) (delay : Int) (max_retries : Nat)
    (db : List QueueTask) : Except String (String × List QueueTask × SentTask) :=
  match task_types task_type with
  | none => .error ("Invalid task type: " ++ task_type)
  | some task_name =>
    let task_id := task_type ++ "_" ++ toString user_id ++ "_" ++ toString now
    let row : QueueTask :=
      { task_id := task_id, user_id := user_id, task_type := task_type,
        status := "pending", priority := priority, created_at := now,
        started_at := none, completed_at := none, task_data := task_data,
        result_data := none, error_message := none, retry_count := 0,
        max_retries := max_retries }
    let sent : SentTask :=
      { task_name := task_name, task_id := task_id, queue := (queue_names priority).getD "low_priority",
        countdown := if delay > 0 then some delay else none,
        retries_arg := max_retries }
    .ok (task_id, db ++ [row], sent)

/-- Effective priority before validation: the caller request, or the plan
default (`priority = self._get_plan_priority(user_plan) if priority is None`). -/
def resolve_priority (user_plan : PlanType) (priority? : Option Int) : Int :=
  match priority? with
  | none => get_plan_priority user_plan
  | some p => p

/-- `QueueManager.enqueue_task` (src/services/queue_manager.py 139-224).
The user plan is resolved (unknown user raises), the effective priority is
the request or the plan default, and a disallowed priority is replaced by
the `max_priority` the check returns; then `enqueue_submit` persists and
submits.  `now` stands for the event-loop clock used in the generated task
id and for `created_at`. -/
def enqueue_task (users : List UserRow) (now : Int) (user_id : Nat)
    (task_type : String) (task_data : Option PyVal) (priority? : Option Int)
    (delay : Int) (max_retries : Nat) (db : List QueueTask) :
    Except String (String × List QueueTask × SentTask) :=
  match FG.get_user_plan users user_id with
  | none => .error "User not found"
  | some user_plan =>
    if (FG.validate_queue_priority users user_id
        (resolve_priority user_plan priority?)).allowed then
      enqueue_submit now user_id task_type task_data
        (resolve_priority user_plan priority?) delay max_retries db
    else
      match (FG.validate_queue_priority users user_id
          (resolve_priority user_plan priority?)).max_priority with
      | none => .error "KeyError: max_priority"
      | some m => enqueue_submit now user_id task_type task_data m delay max_retries db

/-- `QueueManager.cancel_task` (269-294): a best-effort broker revoke followed
by an unconditional ledger update of the matching row to `cancelled`. -/
def cancel_task (task_id : String) (db : List QueueTask) : Bool × List QueueTask :=
  match db.find? (fun t => t.task_id == task_id) with
  | none => (false, db)
  | some _ =>
    (true,
      updateFirst (fun t => t.task_id == task_id)
        (fun t =>
          { t with
            status := "cancelled",
            error_message := some "Task cancelled by user" }) db)

/-- `QueueManager.retry_failed_task` (296-337).  Returns the boolean result,
the updated ledger and the broker submissions made.  The status reset is
committed before the broker resubmission; the resubmission passes
`max_retries - retry_count` computed from the already-incremented counter. -/
def retry_failed_task (task_id : String) (db : List QueueTask) :
    Bool × List QueueTask × List SentTask :=
  match db.find? (fun t => t.task_id == task_id) with
  | none => (false, db, [])
  | some task =>
    if task.status != "failed" then (false, db, [])
    else if task.retry_count ≥ task.max_retries then (false, db, [])
    else
      let db2 := updateFirst (fun t => t.task_id == task_id)
        (fun t =>
          { t with
            status := "pending",
            retry_count := t.retry_count + 1,
            error_message := none }) db
      match task_types task.task_type with
      | none => (false, db2, [])
      | some task_name =>
        (true, db2,
          [{ task_name := task_name, task_id := task.task_id,
             queue := (queue_names task.priority).getD "low_priority",
             countdown := none,
             retries_arg := task.max_retries - (task.retry_count + 1) }])

/-- `QueueManager._check_stuck_tasks` (485-522), one run of the stuck-task
scan.  `broker task_id` is the authoritative Celery `AsyncResult.status`.
Rows in `processing` whose `started_at` is older than ten minutes are
reconciled for broker states FAILURE, SUCCESS and REVOKED; any other broker
state leaves the row untouched. -/
def check_stuck_tasks (now : Int) (broker : String → String) (db : List QueueTask) :
    List QueueTask :=
  db.map fun t =>
    if t.status == "processing" &&
        (match t.started_at with
         | some s => s < now - 10 * 60
         | none => false) then
      let st := broker t.task_id
      if st == "FAILURE" then
        { t with
          status := "failed",
          error_message := some "Task failed (stuck detection)",
          completed_at := some now }
      else if st == "SUCCESS" || st == "REVOKED" then
        { t with
          status := if st == "SUCCESS" then "completed" else "cancelled",
          completed_at := some now }
      else t
    else t

end QueueMgr

namespace FwdTasks

open Models

/-- The `message_data` dict of a forwarding task payload; absent keys are
`none` (`dict.get` defaults apply at each use site). -/
structure MessageData where
  text : Option String
  message_id : Option String
  msg_type : Option String
  has_media : Bool
  media_type : Option String
deriving Repr, DecidableEq

/-- The `task_data` dict of `forward_message_task`. -/
structure TaskData where
  pair_id : Option Nat
  message_data : Option MessageData
deriving Repr, DecidableEq

/-- One call into the session manager made by the forwarding executors. -/
inductive Dispatch where
  | sendTelegram (account_id : Option Nat) (chat_id : String) (message : String)
  | forwardTelegram (account_id : Option Nat) (from_chat_id to_chat_id : String)
      (message_id : Int)
  | sendDiscord (account_id : Option Nat) (channel_id : Int) (message : String)
deriving Repr, DecidableEq

/-- Return dict of `_process_message_forwarding`: either the skip marker
`dict(skipped := True, reason := r)` or `dict(success := b, platform := p)`. -/
inductive ProcResult where
  | skipped (reason : String)
  | sent (success : Bool) (platform : String)
deriving Repr, DecidableEq

/-- Python `int(s)` on a decimal string; raises `ValueError` otherwise. -/
def pyInt? (s : String) : Except String Int :=
  match Pystr.strToInt? s with
  | some n => .ok n
  | none => .error ("ValueError: invalid literal for int: " ++ s)

/-- `_forward_telegram_to_telegram` (src/tasks/forwarding_tasks.py 179-197):
copy mode sends a new message, otherwise the original message id (default 0
when absent) is forwarded. -/
def forward_telegram_to_telegram (sessionOk : Dispatch → Bool) (pair : ForwardingPair)
    (md : MessageData) (content : String) : Except String (ProcResult × List Dispatch) :=
  if pair.copy_mode then
    let d := Dispatch.sendTelegram pair.telegram_account_id pair.destination_channel content
    .ok (.sent (sessionOk d) "telegram", [d])
  else do
    let mid ←
      match md.message_id with
      | none => pure (0 : Int)
      | some s => pyInt? s
    let d := Dispatch.forwardTelegram pair.telegram_account_id pair.source_channel
      pair.destination_channel mid
    pure (.sent (sessionOk d) "telegram", [d])

/-- `_forward_telegram_to_discord` (199-208): always copy mode, the discord
channel id is `int(pair.destination_channel)`. -/
def forward_telegram_to_discord (sessionOk : Dispatch → Bool) (pair : ForwardingPair)
    (content : String) : Except String (ProcResult × List Dispatch) := do
  let chan ← pyInt? pair.destination_channel
  let d := Dispatch.sendDiscord pair.discord_account_id chan content
  pure (.sent (sessionOk d) "discord", [d])

/-- `_forward_discord_to_telegram` (210-219). -/
def forward_discord_to_telegram (sessionOk : Dispatch → Bool) (pair : ForwardingPair)
    (content : String) : Except String (ProcResult × List Dispatch) :=
  let d := Dispatch.sendTelegram pair.telegram_account_id pair.destination_channel content
  .ok (.sent (sessionOk d) "telegram", [d])

/-- `_forward_discord_to_discord` (221-229). -/
def forward_discord_to_discord (sessionOk : Dispatch → Bool) (pair : ForwardingPair)
    (content : String) : Except String (ProcResult × List Dispatch) := do
  let chan ← pyInt? pair.destination_channel
  let d := Dispatch.sendDiscord pair.discord_account_id chan content
  pure (.sent (sessionOk d) "discord", [d])

/-- Content decoration and platform routing of `_process_message_forwarding`
(lines 149-173): custom prefix/suffix are applied when truthy (present and
non-empty), then the platform type selects the forwarding helper. -/
def dispatch_by_platform (sessionOk : Dispatch → Bool) (pair : ForwardingPair)
    (md : MessageData) : Except String (ProcResult × List Dispatch) :=
  let mc0 := md.text.getD ""
  let mc1 :=
    match pair.custom_pre with
    | some p => if p == "" then mc0 else p ++ " " ++ mc0
    | none => mc0
  let message_content :=
    match pair.custom_suffix with
    | some s => if s == "" then mc1 else mc1 ++ " " ++ s
    | none => mc1
  if pair.platform_type == "telegram_to_telegram" then
    forward_telegram_to_telegram sessionOk pair md message_content
  else if pair.platform_type == "telegram_to_discord" then
    forward_telegram_to_discord sessionOk pair message_content
  else if pair.platform_type == "discord_to_telegram" then
    forward_discord_to_telegram sessionOk pair message_content
  else if pair.platform_type == "discord_to_discord" then
    forward_discord_to_discord sessionOk pair message_content
  else
    .error ("Unsupported platform type: " ++ pair.platform_type)

/-- `_process_message_forwarding` (src/tasks/forwarding_tasks.py 122-177):
keyword include/exclude filters on the lowercased text, then dispatch.  A
filtered message returns the skip marker with no session call made. -/
def process_message_forwarding (sessionOk : Dispatch → Bool) (pair : ForwardingPair)
    (md : MessageData) : Except String (ProcResult × List Dispatch) :=
  if pair.filter_keywords != [] || pair.exclude_keywords != [] then
    let message_text := Pystr.toLowerStr (md.text.getD "")
    if pair.filter_keywords != [] &&
        !(pair.filter_keywords.any (fun k => Pystr.strContains message_text (Pystr.toLowerStr k))) then
      .ok (.skipped "filtered", [])
    else if pair.exclude_keywords != [] &&
        (pair.exclude_keywords.any (fun k => Pystr.strContains message_text (Pystr.toLowerStr k))) then
      .ok (.skipped "excluded", [])
    else
      dispatch_by_platform sessionOk pair md
  else
    dispatch_by_platform sessionOk pair md

/-- Return value of `forward_message_task`: the success dict, the
post-retry-budget failure dict, or the `self.retry(...)` raise. -/
inductive TaskOutcome where
  | succeeded (destination_message_id : Option String)
  | failedResult (error : String)
  | retryRaised (countdown : Int)
deriving Repr, DecidableEq

/-- The store rows `forward_message_task` writes. -/
structure FwdState where
  message_logs : List MessageLog
  error_logs : List ErrorLog
deriving Repr, DecidableEq

/-- Read-only collaborators of the forwarding executor: user and pair rows,
the clock, and the session layer as a success oracle per dispatch. -/
structure FwdEnv where
  users : List UserRow
  pairs : List ForwardingPair
  now : Int
  sessionOk : Dispatch → Bool

/-- `_log_task_error` (src/tasks/forwarding_tasks.py 515-538). -/
def log_task_error (user_id : Option Nat) (error_type error_message : String)
    (st : FwdState) : FwdState :=
  { st with
    error_logs := st.error_logs ++
      [{ user_id := user_id, telegram_account_id := none,
         error_type := error_type, error_message := error_message }] }

/-- `forward_message_task` (src/tasks/forwarding_tasks.py 29-120).  The body
validates payload and pair, then calls `validate_plan_active`, whose
`AttributeError` (missing user) or `False` (leading to the `ValueError`)
makes the success tail — the `_process_message_forwarding` call, the
MessageLog commit with status `success` and the success dict — unreachable
for every input: an existing user raises at the plan check, a missing one
fails it.  Every exception is logged to ErrorLog and either re-raised as a
retry (`while retries < max_retries`, countdown `60 * 2 ** retries`) or
returned as the failure dict.  `pair.delay` only selects a sleep (after a
feature check that can itself raise), with no store effect.  The
`destination_message_id` in the log and the return is the `result.get` of a
key the `_forward_*` results never carry, hence `none`. -/
def forward_message_task (env : FwdEnv) (retries max_retries : Nat)
    (task_id : String) (user_id : Nat) (td : TaskData) (st : FwdState) :
    TaskOutcome × FwdState × List Dispatch :=
  let attempt : Except String (Option String × MessageLog × List Dispatch) := do
    let pair_id ←
      match td.pair_id with
      | none => Except.error "Missing required field: pair_id"
      | some p => pure p
    let md ←
      match td.message_data with
      | none => Except.error "Missing required field: message_data"
      | some m => pure m
    let pair ←
      match env.pairs.find? (fun p =>
          p.id == pair_id && p.user_id == user_id && p.status == "active") with
      | none => Except.error ("Forwarding pair " ++ toString pair_id ++ " not found or inactive")
      | some p => pure p
    let active ←
      match FG.validate_plan_active env.users user_id with
      | .error e => Except.error e
      | .ok b => pure b
    if !active then
      Except.error "User plan is expired or inactive"
    else do
      let _ ←
        if pair.copy_mode then
          match FG.validate_copy_mode env.users user_id with
          | .error e => Except.error e
          | .ok can_copy =>
            if !can_copy then Except.error "Copy mode not available in your plan"
            else pure ()
        else pure ()
      let _ ←
        if pair.delay > 0 then
          match FG.validate_custom_delays env.users user_id with
          | .error e => Except.error e
          | .ok _ => pure ()
        else pure ()
      let (_result, disp) ← process_message_forwarding env.sessionOk pair md
      let dest : Option String := none
      let log : MessageLog :=
        { forwarding_pair_id := pair.id,
          source_message_id := md.message_id.getD "unknown",
          destination_message_id := dest,
          message_type := md.msg_type.getD "text",
          forwarded_at := env.now,
          status := "success",
          error_message := none,
          has_media := md.has_media,
          media_type := md.media_type }
      pure (dest, log, disp)
  match attempt with
  | .ok (dest, log, disp) =>
    (.succeeded dest, { st with message_logs := st.message_logs ++ [log] }, disp)
  | .error e =>
    let st2 := log_task_error (some user_id) "message_forward_error" e st
    if retries < max_retries then
      (.retryRaised (60 * 2 ^ retries), st2, [])
    else
      (.failedResult e, st2, [])

end FwdTasks

namespace CeleryCfg

open Models

/-- The `task_prerun` signal handler connected in `setup_celery_signals`
(src/tasks/celery_config.py 240-262): the matching ledger row is flipped to
`processing` with a start timestamp. -/
def task_prerun (now : Int) (task_id : String) (db : List QueueTask) : List QueueTask :=
  updateFirst (fun t => t.task_id == task_id)
    (fun t => { t with status := "processing", started_at := some now }) db

/-- The `task_postrun` signal handler (264-267): it only logs, the ledger is
untouched. -/
def task_postrun (db : List QueueTask) : List QueueTask :=
  db

/-- `task_success_handler` (src/tasks/celery_config.py 200-223).  It is
declared with `@celery_app.task(bind=True)` — it is a registered Celery task,
not a connected signal handler, and no code in the repository invokes it. -/
def task_success_handler (now : Int) (retval : PyVal) (task_id : String)
    (db : List QueueTask) : List QueueTask :=
  updateFirst (fun t => t.task_id == task_id)
    (fun t =>
      { t with
        status := "completed",
        result_data := some (match retval with
          | .pyDict l => .pyDict l
          | v => .pyDict [("result", v)]),
        completed_at := some now }) db

/-- `task_failure_handler` (src/tasks/celery_config.py 173-197).  Like
`task_success_handler` it is a registered Celery task that nothing connects
to a signal or calls. -/
def task_failure_handler (now : Int) (task_id : String) (error : String)
    (db : List QueueTask) : List QueueTask :=
  updateFirst (fun t => t.task_id == task_id)
    (fun t =>
      { t with
        status := "failed",
        error_message := some error,
        completed_at := some now }) db

/-- The signals `setup_celery_signals` connects (src/tasks/celery_config.py
226-270); neither `task_success` nor `task_failure` is among them. -/
def connected_signal_handlers : List String :=
  ["worker_ready", "worker_shutdown", "task_prerun", "task_postrun"]

/-- One worker execution of a claimed forwarding job, as Celery runs it with
the handlers of `connected_signal_handlers`: the `task_prerun` signal fires,
the task body (`forward_message_task`, at the `retries` count of the request
context and the default retry budget 3) runs, the `task_postrun` signal
fires.  No other ledger write happens on this path. -/
def worker_run_forward_task (env : FwdTasks.FwdEnv) (retries : Nat) (claim_time : Int)
    (task_id : String) (user_id : Nat) (td : FwdTasks.TaskData)
    (qdb : List QueueTask) (st : FwdTasks.FwdState) :
    FwdTasks.TaskOutcome × List QueueTask × FwdTasks.FwdState × List FwdTasks.Dispatch :=
  let q1 := task_prerun claim_time task_id qdb
  let (outcome, st2, disp) := FwdTasks.forward_message_task env retries 3 task_id user_id td st
  let q2 := task_postrun q1
  (outcome, q2, st2, disp)

end CeleryCfg

namespace TgClient

open Models

/-- The observable behaviour of one live Pyrogram client: whether `stop()`,
`send_message(...)` and `forward_messages(...)` succeed or raise. -/
structure ClientBeh where
  stopOk : Bool
  sendOk : Bool
  forwardOk : Bool
deriving Repr, DecidableEq

/-- A method call made on a live client (connect attempts are `start`). -/
inductive ClientCall where
  | start (account_id : Nat)
  | stop (account_id : Nat)
  | sendMessage (account_id : Nat) (chat_id : String) (message : String)
  | forwardMessages (account_id : Nat) (to_chat_id from_chat_id : String)
      (message_id : Int)
deriving Repr, DecidableEq

/-- State of `TelegramClient`: the in-memory `self.clients` registry map,
the telegram-account rows, and the error-log rows. -/
structure TgState where
  clients : List (Nat × ClientBeh)
  accounts : List TgAccount
  error_logs : List ErrorLog
deriving Repr, DecidableEq

/-- `account_id in self.clients` / `self.clients[account_id]`. -/
def lookupClient (st : TgState) (account_id : Nat) : Option ClientBeh :=
  (st.clients.find? (fun c => c.1 == account_id)).map (fun c => c.2)

/-- `TelegramClient._log_error` (src/bots/telegram_client.py 353-372). -/
def log_error (user_id : Option Nat) (account_id : Option Nat)
    (error_type error_message : String) (st : TgState) : TgState :=
  { st with
    error_logs := st.error_logs ++
      [{ user_id := user_id, telegram_account_id := account_id,
         error_type := error_type, error_message := error_message }] }

/-- `TelegramClient.remove_account` (src/bots/telegram_client.py 215-249).
The account row is looked up; a live client is stopped and deleted from the
registry, the session file removed, and the row flipped to `inactive`.  Any
exception (missing account, or `client.stop()` raising) reaches the `except`
clause: rollback, error log, and re-raise — so on a failing stop the `del`
and the status flip never run.  The first component is the python result
(`True` or the re-raised exception), then the post state and the client
calls made. -/
def remove_account (account_id : Nat) (st : TgState) :
    Except String Bool × TgState × List ClientCall :=
  match st.accounts.find? (fun a => a.id == account_id) with
  | none =>
    (.error "Account not found",
     log_error none (some account_id) "account_remove_error" "Account not found" st,
     [])
  | some account =>
    match lookupClient st account_id with
    | some client =>
      if client.stopOk then
        let st1 := { st with clients := st.clients.filter (fun c => c.1 != account_id) }
        let st2 :=
          { st1 with
            accounts := updateFirst (fun a => a.id == account_id)
              (fun a => { a with status := "inactive" }) st1.accounts }
        (.ok true, st2, [.stop account_id])
      else
        (.error "client stop failed",
         log_error (some account.user_id) (some account_id) "account_remove_error"
           "client stop failed" st,
         [.stop account_id])
    | none =>
      let st2 :=
        { st with
          accounts := updateFirst (fun a => a.id == account_id)
            (fun a => { a with status := "inactive" }) st.accounts }
      (.ok true, st2, [])

/-- `TelegramClient.send_message` (src/bots/telegram_client.py 274-288):
without a registry entry it logs and returns `False`, making no client call;
with one it calls `send_message` and maps an exception to an error-log row
and `False`. -/
def send_message (account_id : Nat) (chat_id : String) (message : String)
    (st : TgState) : Bool × TgState × List ClientCall :=
  match lookupClient st account_id with
  | none => (false, st, [])
  | some client =>
    if client.sendOk then
      (true, st, [.sendMessage account_id chat_id message])
    else
      (false,
       log_error none (some account_id) "message_send_error" "send failed" st,
       [.sendMessage account_id chat_id message])

/-- `TelegramClient.forward_message` (src/bots/telegram_client.py 290-304). -/
def forward_message (account_id : Nat) (from_chat_id to_chat_id : String)
    (message_id : Int) (st : TgState) : Bool × TgState × List ClientCall :=
  match lookupClient st account_id with
  | none => (false, st, [])
  | some client =>
    if client.forwardOk then
      (true, st, [.forwardMessages account_id to_chat_id from_chat_id message_id])
    else
      (false,
       log_error none (some account_id) "message_forward_error" "forward failed" st,
       [.forwardMessages account_id to_chat_id from_chat_id message_id])

end TgClient

namespace SessionMgr

/-- `SessionManager.remove_telegram_account` (src/services/session_manager.py
128-146): delegates to the telegram client, logs, and re-raises any
exception unchanged. -/
def remove_telegram_account (account_id : Nat) (st : TgClient.TgState) :
    Except String Bool × TgClient.TgState × List TgClient.ClientCall :=
  TgClient.remove_account account_id st

/-- `SessionManager.send_telegram_message` (249-251). -/
def send_telegram_message (account_id : Nat) (chat_id : String) (message : String)
    (st : TgClient.TgState) : Bool × TgClient.TgState × List TgClient.ClientCall :=
  TgClient.send_message account_id chat_id message st

/-- `SessionManager.forward_telegram_message` (257-259). -/
def forward_telegram_message (account_id : Nat) (from_chat_id to_chat_id : String)
    (message_id : Int) (st : TgClient.TgState) :
    Bool × TgClient.TgState × List TgClient.ClientCall :=
  TgClient.forward_message account_id from_chat_id to_chat_id message_id st

end SessionMgr

namespace FwdApi

open Models PlanRules

end FwdApi

/-!
Concrete fixtures used by the claim theorems, their witnesses and their
counterexamples.
-/

/-- A free-plan user with no expiry. -/
def u7 : Models.UserRow :=
  { id := 7, plan := "free", plan_expires_at := none }

/-- An active telegram-to-telegram pair of `u7` without filters. -/
def plainPair : Models.ForwardingPair :=
  { id := 1, user_id := 7, telegram_account_id := some 11, discord_account_id := none,
    source_channel := "-100200", destination_channel := "-100300", delay := 0,
    silent_mode := false, status := "active", platform_type := "telegram_to_telegram",
    copy_mode := false, filter_keywords := [], exclude_keywords := [],
    custom_pre := none, custom_suffix := none }

/-- The same pair with the include-keyword filter `["alpha"]`. -/
def filteredPair : Models.ForwardingPair :=
  { plainPair with id := 2, filter_keywords := ["alpha"] }

/-- An incoming message whose text contains none of the filter keywords. -/
def betaMessage : FwdTasks.MessageData :=
  { text := some "beta release today", message_id := some "5", msg_type := some "text",
    has_media := false, media_type := none }

/-- Executor environment holding `u7` and both pairs; every session call
succeeds. -/
def fwdEnv : FwdTasks.FwdEnv :=
  { users := [u7], pairs := [plainPair, filteredPair], now := 500,
    sessionOk := fun _ => true }

/-- A pending ledger row for a forwarding job of `u7`. -/
def pendingRow : Models.QueueTask :=
  { task_id := "t1", user_id := 7, task_type := "forward_message", status := "pending",
    priority := 1, created_at := 0, started_at := none, completed_at := none,
    task_data := none, result_data := none, error_message := none,
    retry_count := 0, max_retries := 3 }

/-- A `processing` ledger row whose start timestamp is time 0. -/
def stuckRow : Models.QueueTask :=
  { pendingRow with status := "processing", started_at := some 0 }

/-- A `completed` ledger row. -/
def completedRow : Models.QueueTask :=
  { pendingRow with status := "completed", completed_at := some 50 }

/-- A `failed` ledger row with its retry budget exhausted. -/
def exhaustedRow : Models.QueueTask :=
  { pendingRow with
    task_id := "t2", status := "failed",
    error_message := some "boom", retry_count := 3, max_retries := 3 }

/-- An active telegram account row. -/
def tgAcc1 : Models.TgAccount :=
  { id := 1, user_id := 7, phone_number := "+100", session_data := some "sess",
    status := "active" }

/-- Registry state whose live client for account 1 stops cleanly. -/
def tgGoodState : TgClient.TgState :=
  { clients := [(1, { stopOk := true, sendOk := true, forwardOk := true })],
    accounts := [tgAcc1], error_logs := [] }

/-- Registry state whose live client for account 1 raises on `stop()`. -/
def tgBadState : TgClient.TgState :=
  { clients := [(1, { stopOk := false, sendOk := true, forwardOk := true })],
    accounts := [tgAcc1], error_logs := [] }

/-- Registry state with no live clients at all. -/
def tgEmptyState : TgClient.TgState :=
  { clients := [], accounts := [tgAcc1], error_logs := [] }

namespace Models

theorem updateFirst_length (p : α → Bool) (f : α → α) (l : List α) :
    (updateFirst p f l).length = l.length := by
  induction l with
  | nil => rfl
  | cons x xs ih =>
    by_cases hp : p x <;> simp [updateFirst, hp, ih]

/-- Reading an index of `updateFirst p f l`: the element is unchanged, or it
is `f` of the original element and that position is the first match. -/
theorem updateFirst_getElem? (p : α → Bool) (f : α → α) (l : List α) (i : Nat) :
    (updateFirst p f l)[i]? = l[i]? ∨
      ((updateFirst p f l)[i]? = (l[i]?).map f ∧ l.find? p = l[i]?) := by
  induction l generalizing i with
  | nil => left; simp [updateFirst]
  | cons x xs ih =>
    by_cases hp : p x
    · cases i with
      | zero =>
        right
        constructor
        · simp [updateFirst, hp]
        · simp [List.find?, hp]
      | succ j =>
        left
        simp [updateFirst, hp]
    · cases i with
      | zero =>
        left
        simp [updateFirst, hp]
      | succ j =>
        rcases ih j with h | ⟨h1, h2⟩
        · left
          simpa [updateFirst, hp] using h
        · right
          constructor
          · simpa [updateFirst, hp] using h1
          · simpa [List.find?, hp] using h2

/-- Membership after `updateFirst p f l`: an element of the result is an
untouched element of `l`, or the image under `f` of the first match. -/
theorem mem_updateFirst (p : α → Bool) (f : α → α) (l : List α) (x : α)
    (hx : x ∈ updateFirst p f l) : x ∈ l ∨ ∃ u, l.find? p = some u ∧ x = f u := by
  induction l with
  | nil => simp [updateFirst] at hx
  | cons a as ih =>
    by_cases hp : p a
    · rw [updateFirst, if_pos hp] at hx
      rcases List.mem_cons.mp hx with rfl | hx
      · right
        exact ⟨a, by simp [List.find?, hp], rfl⟩
      · left
        exact List.mem_cons_of_mem _ hx
    · rw [updateFirst, if_neg hp] at hx
      rcases List.mem_cons.mp hx with rfl | hx
      · left
        exact List.mem_cons_self _ _
      · rcases ih hx with h | ⟨u, hu, rfl⟩
        · left
          exact List.mem_cons_of_mem _ h
        · right
          refine ⟨u, ?_, rfl⟩
          simp [List.find?, hp, hu]

/-- When `f` does not change how `p` selects, looking up the first match of
`p` after `updateFirst p f l` yields the image of the original first match. -/
theorem find?_updateFirst (p : α → Bool) (f : α → α) (l : List α) (u : α)
    (hu : l.find? p = some u) (hpres : ∀ x, p (f x) = p x) :
    (updateFirst p f l).find? p = some (f u) := by
  induction l with
  | nil => simp [List.find?] at hu
  | cons a as ih =>
    by_cases hp : p a
    · have ha : u = a := by
        simp [List.find?, hp] at hu
        exact hu.symm
      subst ha
      simp [updateFirst, hp, List.find?, hpres]
    · have hu2 : as.find? p = some u := by
        simpa [List.find?, hp] using hu
      simp [updateFirst, hp, List.find?, ih hu2]

end Models

/-- C1: the worker claiming a forwarding job does flip the ledger row to
`processing` with a start timestamp (connected `task_prerun` handler), but
when the handler finishes the row is NOT flipped to `completed` or `failed`:
the connected `task_postrun` handler leaves the store untouched and
`task_success_handler` / `task_failure_handler` — the code that would
perform the flip — are registered Celery tasks that no signal or caller
ever invokes.  In the run below the worker claims the job at time 100 with
the retry budget exhausted; the handler finishes by returning the failure
dict (the plan-active check raises `AttributeError` for every existing
user), yet the row keeps status `processing` with neither an error string
nor a result blob — although applying either unused handler by hand would
perform exactly the claimed flip. -/
theorem C1_completion_not_recorded_in_ledger :
    (CeleryCfg.worker_run_forward_task fwdEnv 3 100 "t1" 7
        { pair_id := some 1, message_data := some betaMessage } [pendingRow]
        { message_logs := [], error_logs := [] }).1 =
      FwdTasks.TaskOutcome.failedResult
        "AttributeError: \x27User\x27 object has no attribute \x27plan_expiry\x27" ∧
    ((CeleryCfg.worker_run_forward_task fwdEnv 3 100 "t1" 7
        { pair_id := some 1, message_data := some betaMessage } [pendingRow]
        { message_logs := [], error_logs := [] }).2.1.map
      (fun t => (t.status, t.started_at, t.result_data.isSome, t.error_message))) =
      [("processing", some 100, false, none)] ∧
    ((CeleryCfg.task_failure_handler 200 "t1"
        "AttributeError: \x27User\x27 object has no attribute \x27plan_expiry\x27"
        [stuckRow]).map (fun t => (t.status, t.error_message))) =
      [("failed",
        some "AttributeError: \x27User\x27 object has no attribute \x27plan_expiry\x27")] ∧
    ((CeleryCfg.task_success_handler 200 (Models.PyVal.pyBool true) "t1" [stuckRow]).map
      (fun t => t.status)) = ["completed"] ∧
    CeleryCfg.connected_signal_handlers =
      ["worker_ready", "worker_shutdown", "task_prerun", "task_postrun"] := by
  decide

/-- C2: the keyword filter of `_process_message_forwarding` would drop the
"beta" message of the `["alpha"]`-filtered pair with the skip marker and no
session dispatch (first conjunct), but the executor never reaches it: for
every existing user `validate_plan_active` raises `AttributeError` (the
mapped `User` model has no `plan_expiry` attribute) before the filter runs,
so the run is logged to ErrorLog and re-raised as a retry — ultimately a
failed outcome, not a skipped one.  No dispatch happens and no message-log
row of any status is written, but the claimed skipped-not-failed outcome
does not occur. -/
theorem C2_plan_check_raises_before_filter :
    FwdTasks.process_message_forwarding (fun _ => true) filteredPair betaMessage =
      .ok (.skipped "filtered", []) ∧
    (FwdTasks.forward_message_task fwdEnv 0 3 "t2" 7
        { pair_id := some 2, message_data := some betaMessage }
        { message_logs := [], error_logs := [] }).1 =
      FwdTasks.TaskOutcome.retryRaised 60 ∧
    (FwdTasks.forward_message_task fwdEnv 0 3 "t2" 7
        { pair_id := some 2, message_data := some betaMessage }
        { message_logs := [], error_logs := [] }).2.2 = [] ∧
    (FwdTasks.forward_message_task fwdEnv 0 3 "t2" 7
        { pair_id := some 2, message_data := some betaMessage }
        { message_logs := [], error_logs := [] }).2.1.message_logs = [] ∧
    ((FwdTasks.forward_message_task fwdEnv 0 3 "t2" 7
        { pair_id := some 2, message_data := some betaMessage }
        { message_logs := [], error_logs := [] }).2.1.error_logs.map
      (fun l => (l.error_type, l.error_message))) =
      [("message_forward_error",
        "AttributeError: \x27User\x27 object has no attribute \x27plan_expiry\x27")] :=
  ⟨rfl, rfl, rfl, rfl, rfl⟩

/-- C5: for the unrecognized tier string "gold" the plan-limit lookup of
`PlanValidator.get_plan_limits` raises `ValueError` (the `PLAN_LIMITS.get`
fallback to the free tier on the next line is dead code), and every
validator built on it propagates the exception; only the separate
`FeatureGating.get_user_plan` path catches the `ValueError` and falls back
to the free tier. -/
theorem C5_unknown_tier_lookup_throws :
    PlanRules.get_plan_limits "gold" =
      .error "ValueError: gold is not a valid PlanType" ∧
    PlanRules.can_add_forwarding_pair "gold" 0 "telegram_to_telegram" =
      .error "ValueError: gold is not a valid PlanType" ∧
    FG.get_user_plan [{ id := 7, plan := "gold", plan_expires_at := none }] 7 =
      some PlanRules.PlanType.free :=
  ⟨rfl, rfl, rfl⟩

/-- C6 counterexample: a ledger job in `processing` whose start timestamp is
15 minutes in the past but whose broker status is `PENDING` (not FAILURE,
SUCCESS or REVOKED) is never reconciled — after four monitor ticks, at 15
minutes and then at 30, 45 and 60 minutes, it is still `processing`,
refuting that no job is ever left in `processing` forever. -/
theorem C6_counterexample_unknown_broker_status_never_reconciled :
    stuckRow.status = "processing" ∧ stuckRow.started_at = some 0 ∧
    ((QueueMgr.check_stuck_tasks 3600 (fun _ => "PENDING")
      (QueueMgr.check_stuck_tasks 2700 (fun _ => "PENDING")
        (QueueMgr.check_stuck_tasks 1800 (fun _ => "PENDING")
          (QueueMgr.check_stuck_tasks 900 (fun _ => "PENDING") [stuckRow])))).map
      (fun t => t.status)) = ["processing"] :=
  ⟨rfl, rfl, rfl⟩

/-- C8 counterexample: `cancel_task` on a job already in the terminal status
`completed` moves it to the different terminal status `cancelled` and
reports success, refuting the claimed monotonicity exception list. -/
theorem C8_counterexample_cancel_moves_completed_to_cancelled :
    completedRow.status = "completed" ∧
    (QueueMgr.cancel_task "t1" [completedRow]).1 = true ∧
    ((QueueMgr.cancel_task "t1" [completedRow]).2.map (fun t => t.status)) =
      ["cancelled"] :=
  ⟨rfl, rfl, rfl⟩

/-- C9 counterexample: removing an account whose live session raises on
`stop()` propagates the error to the caller (through
`SessionManager.remove_telegram_account`, which re-raises), leaves the
session in the registry map, and does not flip the account to `inactive` —
refuting best-effort close, unconditional removal and the status flip. -/
theorem C9_counterexample_stop_failure_propagates :
    (SessionMgr.remove_telegram_account 1 tgBadState).1 =
      .error "client stop failed" ∧
    (SessionMgr.remove_telegram_account 1 tgBadState).2.1.clients =
      tgBadState.clients ∧
    ((SessionMgr.remove_telegram_account 1 tgBadState).2.1.accounts.map
      (fun a => a.status)) = ["active"] :=
  ⟨rfl, rfl, rfl⟩

/-- C10: for an account id with no live client in the registry map, both the
send and the forward operation return `False` without raising, make no
client call at all — in particular no connect (`start`) handshake — and
leave the registry state (clients, accounts, error logs) unchanged. -/
theorem C10_missing_client_send_forward_noop
    (st : TgClient.TgState) (account_id : Nat)
    (chat_id message from_chat to_chat : String) (mid : Int)
    (h : TgClient.lookupClient st account_id = none) :
    TgClient.send_message account_id chat_id message st = (false, st, []) ∧
    TgClient.forward_message account_id from_chat to_chat mid st = (false, st, []) := by
  constructor
  · simp only [TgClient.send_message, h]
  · simp only [TgClient.forward_message, h]

/-- C10 witness: the registry with no live clients. -/
theorem C10_missing_client_send_forward_noop_witness :
    TgClient.send_message 3 "chan" "msg" tgEmptyState = (false, tgEmptyState, []) ∧
    TgClient.forward_message 3 "src" "dst" 5 tgEmptyState = (false, tgEmptyState, []) :=
  C10_missing_client_send_forward_noop tgEmptyState 3 "chan" "msg" "src" "dst" 5 rfl

/-- C4: for a user whose plan tier is known, a requested queue priority
above the tier ceiling never causes a rejection or an enqueue error — the
priority check hands back the ceiling, the request is silently capped to
it, and the job is enqueued pending into the band of the capped
priority. -/
theorem C4_over_ceiling_priority_capped_and_enqueued
    (users : List Models.UserRow) (now : Int) (user_id : Nat)
    (plan : PlanRules.PlanType) (task_type task_name : String)
    (task_data : Option Models.PyVal) (requested delay : Int) (max_retries : Nat)
    (db : List Models.QueueTask)
    (hplan : FG.get_user_plan users user_id = some plan)
    (htype : QueueMgr.task_types task_type = some task_name)
    (hover : requested > (FG.plan_limits plan).max_queue_priority) :
    (FG.validate_queue_priority users user_id requested).max_priority =
      some (FG.plan_limits plan).max_queue_priority ∧
    ∃ tid row sent,
      QueueMgr.enqueue_task users now user_id task_type task_data (some requested)
        delay max_retries db = .ok (tid, db ++ [row], sent) ∧
      row.priority = (FG.plan_limits plan).max_queue_priority ∧
      row.status = "pending" ∧
      sent.queue =
        (QueueMgr.queue_names ((FG.plan_limits plan).max_queue_priority)).getD
          "low_priority" := by
  have hv : FG.validate_queue_priority users user_id requested =
      { allowed := false
        reason := some ("Priority " ++ toString requested ++ " not available in " ++
          plan.value ++ " plan")
        max_priority := some (FG.plan_limits plan).max_queue_priority } := by
    unfold FG.validate_queue_priority
    rw [hplan]
    simp [hover]
  have he : QueueMgr.enqueue_task users now user_id task_type task_data (some requested)
      delay max_retries db =
      .ok (task_type ++ "_" ++ toString user_id ++ "_" ++ toString now,
        db ++ [{ task_id := task_type ++ "_" ++ toString user_id ++ "_" ++ toString now,
                 user_id := user_id, task_type := task_type, status := "pending",
                 priority := (FG.plan_limits plan).max_queue_priority, created_at := now,
                 started_at := none, completed_at := none, task_data := task_data,
                 result_data := none, error_message := none, retry_count := 0,
                 max_retries := max_retries }],
        { task_name := task_name,
          task_id := task_type ++ "_" ++ toString user_id ++ "_" ++ toString now,
          queue := (QueueMgr.queue_names ((FG.plan_limits plan).max_queue_priority)).getD
            "low_priority",
          countdown := if delay > 0 then some delay else none,
          retries_arg := max_retries }) := by
    unfold QueueMgr.enqueue_task QueueMgr.enqueue_submit
    rw [hplan]
    simp only [QueueMgr.resolve_priority, hv, htype]
    rfl
  exact ⟨by rw [hv], _, _, _, he, rfl, rfl, rfl⟩

/-- C4 witness: free-tier user 7 requesting priority 3. -/
theorem C4_over_ceiling_priority_capped_and_enqueued_witness :
    (FG.validate_queue_priority [u7] 7 3).max_priority =
      some (FG.plan_limits PlanRules.PlanType.free).max_queue_priority ∧
    ∃ tid row sent,
      QueueMgr.enqueue_task [u7] 50 7 "forward_message" none (some 3) 0 3 [] =
        .ok (tid, [] ++ [row], sent) ∧
      row.priority = (FG.plan_limits PlanRules.PlanType.free).max_queue_priority ∧
      row.status = "pending" ∧
      sent.queue =
        (QueueMgr.queue_names ((FG.plan_limits PlanRules.PlanType.free).max_queue_priority)).getD
          "low_priority" :=
  C4_over_ceiling_priority_capped_and_enqueued [u7] 50 7 .free "forward_message"
    "tasks.forwarding_tasks.forward_message_task" none 3 0 3 [] rfl rfl (by decide)

/-- C6 (amended): a `processing` ledger job whose start timestamp is older
than the 10-minute threshold is reconciled on a monitor tick exactly for the
broker statuses FAILURE (→ `failed`), SUCCESS (→ `completed`) and REVOKED
(→ `cancelled`) — covering the 15-minute SUCCESS scenario — while any other
broker status leaves it in `processing`. -/
theorem C6_stuck_job_reconciliation
    (now : Int) (broker : String → String) (db : List Models.QueueTask)
    (i : Nat) (t : Models.QueueTask) (s : Int)
    (ht : db[i]? = some t) (hproc : t.status = "processing")
    (hs : t.started_at = some s) (hold : s < now - 10 * 60) :
    ∃ t2, (QueueMgr.check_stuck_tasks now broker db)[i]? = some t2 ∧
      t2.status =
        (if broker t.task_id == "FAILURE" then "failed"
         else if broker t.task_id == "SUCCESS" then "completed"
         else if broker t.task_id == "REVOKED" then "cancelled"
         else "processing") := by
  unfold QueueMgr.check_stuck_tasks
  rw [List.getElem?_map, ht]
  refine ⟨_, rfl, ?_⟩
  simp only [hproc, hs, hold]
  by_cases h1 : broker t.task_id == "FAILURE"
  · simp [h1]
  · by_cases h2 : broker t.task_id == "SUCCESS"
    · simp [h1, h2]
    · by_cases h3 : broker t.task_id == "REVOKED"
      · simp [h1, h2, h3]
      · simp [h1, h2, h3, hproc]

/-- C6 witness: the 15-minute-stuck processing job with broker status
SUCCESS is completed on the next tick. -/
theorem C6_stuck_job_reconciliation_witness :
    ∃ t2, (QueueMgr.check_stuck_tasks 900 (fun _ => "SUCCESS") [stuckRow])[0]? = some t2 ∧
      t2.status = "completed" := by
  have h := C6_stuck_job_reconciliation 900 (fun _ => "SUCCESS") [stuckRow] 0 stuckRow 0
    rfl rfl rfl (by decide)
  simpa using h

/-- C7: under the ledger invariant `retry_count ≤ max_retries`, (a) a
successful enqueue only appends a fresh row with `retry_count = 0`, keeping
the invariant, (b) the retry operation keeps the invariant (it increments
the counter only while strictly below the budget), and (c) on a `failed`
job whose `retry_count` has reached `max_retries` the retry operation
returns `False` and changes nothing. -/
theorem C7_retry_budget_invariant
    (users : List Models.UserRow) (now : Int) (user_id : Nat) (task_type : String)
    (task_data : Option Models.PyVal) (priority? : Option Int) (delay : Int)
    (max_retries : Nat) (tid : String) (db : List Models.QueueTask)
    (hinv : ∀ t ∈ db, t.retry_count ≤ t.max_retries) :
    (∀ tid2 db2 sent,
      QueueMgr.enqueue_task users now user_id task_type task_data priority? delay
          max_retries db = .ok (tid2, db2, sent) →
      ∀ t ∈ db2, t.retry_count ≤ t.max_retries) ∧
    (∀ t ∈ (QueueMgr.retry_failed_task tid db).2.1, t.retry_count ≤ t.max_retries) ∧
    (∀ t, db.find? (fun u => u.task_id == tid) = some t → t.status = "failed" →
      t.retry_count ≥ t.max_retries →
      QueueMgr.retry_failed_task tid db = (false, db, [])) := by
  refine ⟨?_, ?_, ?_⟩
  · intro tid2 db2 sent h t ht
    have hshape : ∀ pr, QueueMgr.enqueue_submit now user_id task_type task_data pr
        delay max_retries db = .ok (tid2, db2, sent) → t.retry_count ≤ t.max_retries := by
      intro pr hs
      unfold QueueMgr.enqueue_submit at hs
      split at hs
      · exact Except.noConfusion hs
      · simp only [Except.ok.injEq, Prod.mk.injEq] at hs
        obtain ⟨-, hdb2, -⟩ := hs
        subst hdb2
        rcases List.mem_append.mp ht with hmem | hnew
        · exact hinv t hmem
        · simp only [List.mem_singleton] at hnew
          subst hnew
          exact Nat.zero_le _
    unfold QueueMgr.enqueue_task at h
    split at h
    · exact Except.noConfusion h
    · split at h
      · exact hshape _ h
      · split at h
        · exact Except.noConfusion h
        · exact hshape _ h
  · intro t ht
    unfold QueueMgr.retry_failed_task at ht
    split at ht
    · exact hinv t ht
    · rename_i task hf
      split at ht
      · exact hinv t ht
      · split at ht
        · exact hinv t ht
        · rename_i hst hge
          have hlt : task.retry_count < task.max_retries := Nat.lt_of_not_le hge
          have hmem : t ∈ Models.updateFirst (fun u => u.task_id == tid)
              (fun u =>
                { u with
                  status := "pending", retry_count := u.retry_count + 1,
                  error_message := none }) db := by
            revert ht
            cases QueueMgr.task_types task.task_type <;> intro ht <;> simpa using ht
          rcases Models.mem_updateFirst _ _ _ _ hmem with hold | ⟨u, hu, rfl⟩
          · exact hinv t hold
          · rw [hf] at hu
            injection hu with hut
            subst hut
            simpa using hlt
  · intro t hf hst hge
    unfold QueueMgr.retry_failed_task
    rw [hf]
    simp [hst, hge]

/-- C7 witness: a failed job with `retry_count = max_retries = 3` is left
untouched by retry. -/
theorem C7_retry_budget_invariant_witness :
    QueueMgr.retry_failed_task "t2" [exhaustedRow] = (false, [exhaustedRow], []) :=
  (C7_retry_budget_invariant [] 0 0 "forward_message" none none 0 3 "t2" [exhaustedRow]
    (by decide)).2.2 exhaustedRow rfl rfl (by decide)

/-- C8 (amended): a ledger row in a terminal status (`completed`, `failed`
or `cancelled`) is never moved back to `pending` or `processing` by cancel
or by the stuck-task monitor, and retry moves only a `failed` row (to
`pending`); however `cancel_task` may move any existing row — terminal ones
included — to `cancelled`. -/
theorem C8_terminal_rows_cancel_retry_monitor
    (db : List Models.QueueTask) (tid : String) (now : Int) (broker : String → String)
    (i : Nat) (t : Models.QueueTask) (ht : db[i]? = some t)
    (hterm : t.status = "completed" ∨ t.status = "failed" ∨ t.status = "cancelled") :
    (∃ tc, (QueueMgr.cancel_task tid db).2[i]? = some tc ∧
      (tc.status = t.status ∨ tc.status = "cancelled")) ∧
    (∃ tr, (QueueMgr.retry_failed_task tid db).2.1[i]? = some tr ∧
      (tr.status = t.status ∨ (t.status = "failed" ∧ tr.status = "pending"))) ∧
    (QueueMgr.check_stuck_tasks now broker db)[i]? = some t := by
  refine ⟨?_, ?_, ?_⟩
  · unfold QueueMgr.cancel_task
    split
    · exact ⟨t, ht, Or.inl rfl⟩
    · rcases Models.updateFirst_getElem? (fun u => u.task_id == tid)
        (fun u =>
          { u with
            status := "cancelled",
            error_message := some "Task cancelled by user" }) db i with hsame | ⟨hmap, -⟩
      · exact ⟨t, by rw [hsame, ht], Or.inl rfl⟩
      · refine ⟨_, by rw [hmap, ht]; rfl, Or.inr rfl⟩
  · unfold QueueMgr.retry_failed_task
    split
    · exact ⟨t, ht, Or.inl rfl⟩
    · rename_i task hf
      split
      · exact ⟨t, ht, Or.inl rfl⟩
      · split
        · exact ⟨t, ht, Or.inl rfl⟩
        · rename_i hst hge
          have htask : task.status = "failed" := by
            simpa using hst
          have hidx :
              ∃ tr, (Models.updateFirst (fun u => u.task_id == tid)
                (fun u =>
                  { u with
                    status := "pending", retry_count := u.retry_count + 1,
                    error_message := none }) db)[i]? = some tr ∧
                (tr.status = t.status ∨ (t.status = "failed" ∧ tr.status = "pending")) := by
            rcases Models.updateFirst_getElem? (fun u => u.task_id == tid)
              (fun u =>
                { u with
                  status := "pending", retry_count := u.retry_count + 1,
                  error_message := none }) db i with hsame | ⟨hmap, hfirst⟩
            · exact ⟨t, by rw [hsame, ht], Or.inl rfl⟩
            · rw [hf, ht] at hfirst
              injection hfirst with hft
              refine ⟨_, by rw [hmap, ht]; rfl, Or.inr ⟨?_, rfl⟩⟩
              rw [← hft]
              exact htask
          cases htt : QueueMgr.task_types task.task_type <;> simpa using hidx
  · unfold QueueMgr.check_stuck_tasks
    rw [List.getElem?_map, ht]
    have hne : (t.status == "processing") = false := by
      rcases hterm with h | h | h <;> rw [h] <;> rfl
    simp only [Option.map_some', hne, Bool.false_and, Bool.false_eq_true, if_false]

/-- C8 witness: a completed row, the monitor and retry leave it alone while
cancel moves it to `cancelled`. -/
theorem C8_terminal_rows_cancel_retry_monitor_witness :
    (∃ tc, (QueueMgr.cancel_task "t1" [completedRow]).2[0]? = some tc ∧
      (tc.status = completedRow.status ∨ tc.status = "cancelled")) ∧
    (∃ tr, (QueueMgr.retry_failed_task "t1" [completedRow]).2.1[0]? = some tr ∧
      (tr.status = completedRow.status ∨
        (completedRow.status = "failed" ∧ tr.status = "pending"))) ∧
    (QueueMgr.check_stuck_tasks 900 (fun _ => "SUCCESS") [completedRow])[0]? =
      some completedRow :=
  C8_terminal_rows_cancel_retry_monitor [completedRow] "t1" 900 (fun _ => "SUCCESS")
    0 completedRow rfl (Or.inl rfl)

/-- C9 (amended): removing an existing account stops its live session and,
when the stop succeeds or there is no live session, removes it from the
registry map, flips the account row to `inactive` and returns `True`; when
the stop raises, the error is logged and propagated to the caller, the
session stays in the registry map and the account status is not changed. -/
theorem C9_remove_account_case_analysis
    (st : TgClient.TgState) (account_id : Nat) (account : Models.TgAccount)
    (hacc : st.accounts.find? (fun a => a.id == account_id) = some account) :
    (∀ client, TgClient.lookupClient st account_id = some client →
      (client.stopOk = true →
        (TgClient.remove_account account_id st).1 = .ok true ∧
        (TgClient.remove_account account_id st).2.1.clients =
          st.clients.filter (fun c => c.1 != account_id) ∧
        ∃ a2, (TgClient.remove_account account_id st).2.1.accounts.find?
            (fun a => a.id == account_id) = some a2 ∧ a2.status = "inactive") ∧
      (client.stopOk = false →
        (TgClient.remove_account account_id st).1 = .error "client stop failed" ∧
        (TgClient.remove_account account_id st).2.1.clients = st.clients ∧
        (TgClient.remove_account account_id st).2.1.accounts = st.accounts)) ∧
    (TgClient.lookupClient st account_id = none →
      (TgClient.remove_account account_id st).1 = .ok true ∧
      (TgClient.remove_account account_id st).2.1.clients = st.clients ∧
      ∃ a2, (TgClient.remove_account account_id st).2.1.accounts.find?
          (fun a => a.id == account_id) = some a2 ∧ a2.status = "inactive") := by
  have hfind := Models.find?_updateFirst (fun a => a.id == account_id)
    (fun a => { a with status := "inactive" }) st.accounts account hacc (fun _ => rfl)
  constructor
  · intro client hcl
    constructor
    · intro hstop
      simp only [TgClient.remove_account, hacc, hcl, hstop, reduceIte]
      exact ⟨trivial, trivial, { account with status := "inactive" }, hfind, rfl⟩
    · intro hstop
      simp only [TgClient.remove_account, hacc, hcl, hstop, Bool.false_eq_true, if_false]
      exact ⟨trivial, rfl, rfl⟩
  · intro hcl
    simp only [TgClient.remove_account, hacc, hcl]
    exact ⟨trivial, trivial, { account with status := "inactive" }, hfind, rfl⟩

/-- C9 witness: account 1 with a cleanly-stopping live client is removed
from the registry and flipped to `inactive`. -/
theorem C9_remove_account_case_analysis_witness :
    (TgClient.remove_account 1 tgGoodState).1 = .ok true ∧
    (TgClient.remove_account 1 tgGoodState).2.1.clients =
      tgGoodState.clients.filter (fun c => c.1 != 1) ∧
    ∃ a2, (TgClient.remove_account 1 tgGoodState).2.1.accounts.find?
        (fun a => a.id == 1) = some a2 ∧ a2.status = "inactive" :=
  ((C9_remove_account_case_analysis tgGoodState 1 tgAcc1 rfl).1
    { stopOk := true, sendOk := true, forwardOk := true } rfl).1 rfl
